import Mathlib

/-!
Shallow embedding of the InstaLookAlike backend
(`bakcend/routes/auth.js`, `bakcend/routes/users.js` (users part),
the posts router concatenated after it, and the table schema of
`bakcend/server.js`).

Route handlers become Lean functions over an explicit relational store.
JavaScript and SQLite behaviours that the handlers rely on are embedded
explicitly:
* Express route parameters are strings while JWT payload ids are numbers,
  so the JS strict equality `===` used by the follow route is modelled on a
  tagged value type where values of different runtime types never compare
  equal;
* binding a string parameter into an INTEGER-affinity SQLite column applies
  SQLite's affinity conversion (well-formed integer text becomes an
  integer);
* `PRAGMA foreign_keys` is connection state, carried in the store as a
  boolean, since `createTables` only switches it on when it runs.
-/

namespace Insta

/-- JavaScript runtime values as the routes manipulate them: route
parameters are strings, JWT payload ids are numbers. -/
inductive JsVal where
  | num (n : Int)
  | str (s : String)
deriving DecidableEq, Repr

/-- JavaScript strict equality `===`: operands of different runtime types
are never equal; same-typed operands compare by value. -/
def jsStrictEq : JsVal → JsVal → Bool
  | .num a, .num b => a == b
  | .str a, .str b => a == b
  | _, _ => false

/-- A SQLite storage-class value as stored in an INTEGER-affinity column. -/
inductive SqlVal where
  | int (n : Int)
  | text (s : String)
  | null
deriving DecidableEq, Repr

/-- Decimal digit value of a character, if it is a digit. -/
def digitVal (c : Char) : Option Nat :=
  if 48 ≤ c.val && c.val ≤ 57 then some (c.toNat - 48) else none

/-- Accumulate decimal digits; fails on the first non-digit. -/
def parseDigitsAux : List Char → Nat → Option Nat
  | [], acc => some acc
  | c :: cs, acc =>
    match digitVal c with
    | some d => parseDigitsAux cs (acc * 10 + d)
    | none => none

/-- Parse a non-empty all-digit character list. -/
def parseDigits : List Char → Option Nat
  | [] => none
  | cs => parseDigitsAux cs 0

/-- Whether a text value is a well-formed integer literal (optional sign,
then digits), and its value: SQLite's test for converting bound text into
an INTEGER-affinity column. -/
def parseIntText (s : String) : Option Int :=
  match s.toList with
  | '-' :: ds => (parseDigits ds).map (fun n => -(n : Int))
  | '+' :: ds => (parseDigits ds).map (fun n => (n : Int))
  | ds => (parseDigits ds).map (fun n => (n : Int))

/-- SQLite INTEGER-affinity conversion applied when a JS string is bound
into an INTEGER column (e.g. `INSERT INTO follows ... VALUES (?, ?)` with a
route-parameter string): integer-looking text is stored as an integer,
other text is kept as text. -/
def intAffinity (s : String) : SqlVal :=
  match parseIntText s with
  | some n => .int n
  | none => .text s

/-- SQLite comparison of an INTEGER-affinity column value against a bound
string parameter (`WHERE post_id = ?`): the text parameter gets the
column's affinity applied; an integer never equals a text value. -/
def sqlValEqParam (v : SqlVal) (p : String) : Bool :=
  match parseIntText p with
  | some k => match v with
      | .int n => n == k
      | _ => false
  | none => match v with
      | .text s => s == p
      | _ => false

/-- Comparison of an integer id column against a bound string parameter
(used by `WHERE id = ?`, `WHERE user_id = ?`, ... with route params). -/
def sqlEqNatParam (n : Nat) (p : String) : Bool :=
  match parseIntText p with
  | some k => (n : Int) == k
  | none => false

/-! ### Table rows (schema from `createTables` in server.js) -/

/-- A row of the `users` table. -/
structure UserRow where
  id : Nat
  username : String
  email : String
  password : String
  profile_picture : Option String
  bio : Option String
  created_at : Nat
deriving DecidableEq, Repr

/-- A row of the `posts` table. -/
structure PostRow where
  id : Nat
  user_id : Nat
  image_url : String
  caption : Option String
  created_at : Nat
deriving DecidableEq, Repr

/-- A row of the `likes` table. `post_id` is an INTEGER-affinity column
that the like routes fill from a string route parameter. -/
structure LikeRow where
  id : Nat
  user_id : Nat
  post_id : SqlVal
  created_at : Nat
deriving DecidableEq, Repr

/-- A row of the `follows` table. `following_id` is an INTEGER-affinity
column that the follow route fills from a string route parameter. -/
structure FollowRow where
  id : Nat
  follower_id : Nat
  following_id : SqlVal
  created_at : Nat
deriving DecidableEq, Repr

/-- The relational store plus the connection's foreign-key pragma state
(`PRAGMA foreign_keys = ON` is only executed inside `createTables`). -/
structure Store where
  users : List UserRow
  posts : List PostRow
  likes : List LikeRow
  follows : List FollowRow
  nextUserId : Nat
  nextPostId : Nat
  nextLikeId : Nat
  nextFollowId : Nat
  fkOn : Bool
deriving DecidableEq, Repr

/-! ### Credential primitives (bcrypt, jsonwebtoken) -/

/-- Model of a bcrypt hash: an injectively tagged digest of the password. -/
def bcryptHash (password : String) : String := "bcrypt$" ++ password

/-- Model of `bcrypt.compare`: succeeds exactly when the hash is the hash
of the candidate password. -/
def bcryptCompare (password hash : String) : Bool := hash == bcryptHash password

/-- A signed JWT as produced by `jwt.sign(payload, secret)`: the routes
sign payloads `{ id, username }`; no `expiresIn` option is ever passed, so
the `exp` claim is optional and the routes leave it unset. -/
structure Token where
  payloadId : Nat
  payloadUsername : String
  payloadExp : Option Nat
  secret : String
deriving DecidableEq, Repr

/-- `jwt.sign({ id, username }, secret)` as called by register and login:
no options object, hence no `exp` claim. -/
def jwtSign (id : Nat) (username : String) (secret : String) : Token :=
  { payloadId := id, payloadUsername := username, payloadExp := none, secret := secret }

/-- `jwt.verify(token, secret)` at wall-clock time `now`: fails when the
signature does not match the secret, or when an `exp` claim is present and
in the past; otherwise yields the embedded `{ id, username }` payload. -/
def jwtVerify (t : Token) (secret : String) (now : Nat) : Option (Nat × String) :=
  if t.secret ≠ secret then none
  else
    match t.payloadExp with
    | some e => if e < now then none else some (t.payloadId, t.payloadUsername)
    | none => some (t.payloadId, t.payloadUsername)

/-! ### HTTP responses -/

/-- A JSON response value. -/
inductive RVal where
  | int (n : Int)
  | text (s : String)
  | null
  | tok (t : Token)
deriving DecidableEq, Repr

/-- An HTTP JSON response: status code plus the response object's fields
in source order. -/
structure Resp where
  status : Nat
  body : List (String × RVal)
deriving DecidableEq, Repr

/-- Look up a field of a response object. -/
def bodyGet (r : Resp) (k : String) : Option RVal :=
  (r.body.find? (fun kv => kv.1 == k)).map (fun kv => kv.2)

/-- Whether a response object has a field named `k`. -/
def hasKey (r : Resp) (k : String) : Bool :=
  r.body.any (fun kv => kv.1 == k)

/-- An optional text column rendered into JSON. -/
def optText : Option String → RVal
  | none => .null
  | some s => .text s

/-! ### auth middleware (`authenticateToken`, auth.js lines 8-23) -/

/-- The JWT middleware: 401 without a bearer token, 403 when
`jwt.verify` with the hard-coded secret fails, otherwise the verified
`{ id, username }` identity is attached to the request. -/
def authenticateToken (tok : Option Token) (now : Nat) :
    Except Resp (Nat × String) :=
  match tok with
  | none => .error { status := 401, body := [("error", .text "Authentication required")] }
  | some t =>
    match jwtVerify t "your_jwt_secret" now with
    | none => .error { status := 403, body := [("error", .text "Invalid token")] }
    | some idu => .ok idu

/-! ### Register (auth.js lines 26-80) -/

/-- JS falsiness of an optional string body field, as tested by
`if (!username || !email || !password)`: absent (`undefined`) or empty. -/
def jsFalsyStr : Option String → Bool
  | none => true
  | some s => s == ""

/-- The JS regex character class `\\s` (whitespace): space, tab, line
terminators, and the Unicode space separators plus NBSP and ZWNBSP. -/
def jsWhitespace (c : Char) : Bool :=
  c == ' ' || c == '\t' || c == '\n' || c == '\r' ||
  c.val == 0x0b || c.val == 0x0c ||
  c.val == 0xa0 || c.val == 0x1680 ||
  (0x2000 <= c.val && c.val <= 0x200A) ||
  c.val == 0x2028 || c.val == 0x2029 ||
  c.val == 0x202F || c.val == 0x205F ||
  c.val == 0x3000 || c.val == 0xFEFF

/-- A character admitted by the class `[^\s@]` of the email regex. -/
def isEmailChar (c : Char) : Bool := !(jsWhitespace c) && c != '@'

/-- Whether a domain part can be split as `[^\s@]+ \. [^\s@]+`, i.e. it has
a dot that is neither its first nor its last character. -/
def hasInnerDot (d : List Char) : Bool :=
  ((d.drop 1).dropLast).contains '.'

/-- Split a character list at every occurrence of a separator. -/
def splitAtChar (sep : Char) : List Char → List (List Char)
  | [] => [[]]
  | c :: cs =>
    let r := splitAtChar sep cs
    if c == sep then [] :: r
    else
      match r with
      | [] => [[c]]
      | g :: gs => (c :: g) :: gs

/-- Full-string match of the register route's email regex
`/^[^\s@]+@[^\s@]+\.[^\s@]+$/`: since `[^\s@]` excludes `@`, a match is
exactly a split at a unique `@` into a non-empty local part and a domain
part with an inner dot, all characters drawn from `[^\s@]`. -/
def emailRegexTest (s : String) : Bool :=
  match splitAtChar '@' s.toList with
  | [lpart, dpart] =>
      !lpart.isEmpty && lpart.all isEmailChar &&
      dpart.all isEmailChar && hasInnerDot dpart
  | _ => false

/-- Result of the register route: the response, the resulting store, and
how many store operations (`db.get` / `db.run`) were performed. -/
structure RegisterOut where
  resp : Resp
  st : Store
  storeOps : Nat
deriving DecidableEq, Repr

/-- `POST /register`: field-presence check, password-length check, email
regex check (all before any store access), then the uniqueness probe
`SELECT * FROM users WHERE username = ? OR email = ?` and, when free, the
insert plus token issuance. `created_at` is filled from the clock `now`.
JS note: `password.length` is the string length. -/
def register (st : Store) (now : Nat)
    (username email password : Option String) : RegisterOut :=
  if jsFalsyStr username || jsFalsyStr email || jsFalsyStr password then
    { resp := { status := 400,
                body := [("error", .text "Gebruikersnaam, email en wachtwoord zijn verplicht!")] },
      st := st, storeOps := 0 }
  else
    let u := username.getD ""
    let e := email.getD ""
    let p := password.getD ""
    if p.length < 6 then
      { resp := { status := 400,
                  body := [("error", .text "Wachtwoord moet minimaal 6 karakters lang zijn")] },
        st := st, storeOps := 0 }
    else if !emailRegexTest e then
      { resp := { status := 400, body := [("error", .text "Ongeldig email formaat")] },
        st := st, storeOps := 0 }
    else
      match st.users.find? (fun r => r.username == u || r.email == e) with
      | some _ =>
        { resp := { status := 400,
                    body := [("error", .text "Deze gebruikersnaam of email bestaat al")] },
          st := st, storeOps := 1 }
      | none =>
        let row : UserRow :=
          { id := st.nextUserId, username := u, email := e,
            password := bcryptHash p, profile_picture := none, bio := none,
            created_at := now }
        { resp := { status := 201,
                    body := [("token", .tok (jwtSign st.nextUserId u "your_jwt_secret")),
                             ("id", .int st.nextUserId),
                             ("username", .text u)] },
          st := { st with users := st.users ++ [row], nextUserId := st.nextUserId + 1 },
          storeOps := 2 }

/-! ### Login (auth.js lines 83-114) -/

/-- `POST /login`: look the user up by email, compare the bcrypt hash, and
on success sign `{ id, username }` with the hard-coded secret. Both
failure causes answer 401 "Invalid email or password". The store is never
modified. -/
def login (st : Store) (email password : String) : Resp :=
  match st.users.find? (fun r => r.email == email) with
  | none => { status := 401, body := [("error", .text "Invalid email or password")] }
  | some user =>
    if !bcryptCompare password user.password then
      { status := 401, body := [("error", .text "Invalid email or password")] }
    else
      { status := 200,
        body := [("token", .tok (jwtSign user.id user.username "your_jwt_secret")),
                 ("id", .int user.id),
                 ("username", .text user.username)] }

/-! ### Multer upload pipeline (users.js lines 9-35 / posts router lines 9-35) -/

/-- An uploaded multipart file as multer sees it. -/
structure UploadFile where
  originalname : String
  size : Nat
deriving DecidableEq, Repr

/-- Suffix test on the characters of two strings. -/
def strEndsWith (s suffix : String) : Bool :=
  suffix.toList.isSuffixOf s.toList

/-- The `fileFilter` regex `/\.(jpg|jpeg|png|gif)$/` on `originalname`:
an end-anchored alternation, i.e. a suffix test (case-sensitive). -/
def imageExtOk (name : String) : Bool :=
  strEndsWith name ".jpg" || strEndsWith name ".jpeg" ||
  strEndsWith name ".png" || strEndsWith name ".gif"

/-- The `limits.fileSize` ceiling: 5 * 1024 * 1024 bytes. -/
def fileSizeLimit : Nat := 5 * 1024 * 1024

/-- `path.extname`: the suffix from the final dot of the name, or empty
when there is no dot or the only dot is the leading character. -/
def extname (s : String) : String :=
  let cs := s.toList
  let afterDot := cs.reverse.takeWhile (fun c => c != '.')
  if afterDot.length + 1 ≤ cs.length then
    if cs.length - afterDot.length - 1 == 0 then ""
    else String.mk ('.' :: afterDot.reverse)
  else ""

/-- The disk-storage filename callback: `Date.now() + "-" + random +
path.extname(originalname)`. -/
def storedFileName (now rand : Nat) (originalname : String) : String :=
  toString now ++ "-" ++ toString rand ++ extname originalname

/-- `upload.single(field)` on an optional file: no file passes through as
`none`; a present file is rejected (error handed to `next(err)`) when the
extension filter fails or the size exceeds the limit, and otherwise stored
under the generated name. -/
def multerSingle (file : Option UploadFile) (now rand : Nat) :
    Except Unit (Option String) :=
  match file with
  | none => .ok none
  | some f =>
    if !imageExtOk f.originalname then .error ()
    else if f.size > fileSizeLimit then .error ()
    else .ok (some (storedFileName now rand f.originalname))

/-- The response produced when a multer error is handed to `next(err)`:
it reaches the generic error path, which answers status 500 (the app's own
error middleware is registered before the routes, and the Express default
handler also answers 500 for errors without a status). -/
def uploadErrorResp : Resp :=
  { status := 500, body := [("error", .text "Er is een fout opgetreden")] }

/-! ### User routes (users.js) -/

/-- Whether a user row with the given numeric id exists (the foreign-key
target check for `user_id`/`follower_id` columns). -/
def userExists (st : Store) (uid : Nat) : Bool :=
  st.users.any (fun u => u.id == uid)

/-- Whether an INTEGER-affinity column value references an existing user id
(the foreign-key target check for `following_id`). -/
def followTargetExists (st : Store) (v : SqlVal) : Bool :=
  match v with
  | .int n => st.users.any (fun u => (u.id : Int) == n)
  | _ => false

/-- Whether an INTEGER-affinity column value references an existing post id
(the foreign-key target check for `post_id`). -/
def postTargetExists (st : Store) (v : SqlVal) : Bool :=
  match v with
  | .int n => st.posts.any (fun q => (q.id : Int) == n)
  | _ => false

/-- `GET /users/:userId` (users.js lines 38-58): one SELECT with three
COUNT subqueries, all four placeholders bound to the same route-parameter
string; 404 when no user row matches. -/
def getUserProfile (st : Store) (userIdParam : String) : Resp :=
  match st.users.find? (fun u => sqlEqNatParam u.id userIdParam) with
  | none => { status := 404, body := [("error", .text "Gebruiker niet gevonden")] }
  | some u =>
    { status := 200,
      body := [("id", .int u.id),
               ("username", .text u.username),
               ("email", .text u.email),
               ("profile_picture", optText u.profile_picture),
               ("bio", optText u.bio),
               ("created_at", .int u.created_at),
               ("post_count",
                  .int ((st.posts.filter (fun r => sqlEqNatParam r.user_id userIdParam)).length)),
               ("following_count",
                  .int ((st.follows.filter (fun r => sqlEqNatParam r.follower_id userIdParam)).length)),
               ("followers_count",
                  .int ((st.follows.filter (fun r => sqlValEqParam r.following_id userIdParam)).length))] }

/-- `PUT /users/profile` (users.js lines 85-121) behind
`upload.single("profile_picture")`: builds the SET clause from the
defined/truthy fields, answers 400 when both are absent, otherwise updates
only the supplied columns of the caller's row. -/
def putProfile (st : Store) (callerId : Nat) (bio : Option String)
    (file : Option UploadFile) (now rand : Nat) : Resp × Store :=
  match multerSingle file now rand with
  | .error _ => (uploadErrorResp, st)
  | .ok stored =>
    let profile_picture := stored.map (fun n => "/uploads/" ++ n)
    if bio.isNone && profile_picture.isNone then
      ({ status := 400, body := [("error", .text "Geen updates opgegeven")] }, st)
    else
      ({ status := 200, body := [("message", .text "Profiel succesvol bijgewerkt")] },
       { st with users := st.users.map (fun u =>
           if u.id == callerId then
             { u with
               bio := if bio.isSome then bio else u.bio,
               profile_picture :=
                 if profile_picture.isSome then profile_picture else u.profile_picture }
           else u) })

/-- `POST /users/:userId/follow` (users.js lines 124-145): the self-follow
guard compares the string route parameter against the numeric token id
with JS `===`; then `INSERT INTO follows (follower_id, following_id)`
under the `UNIQUE(follower_id, following_id)` constraint (answered 400)
and, when the connection has foreign keys on, the two FK checks (answered
500 via the generic db-error branch). -/
def followUser (st : Store) (userIdParam : String) (callerId : Nat)
    (now : Nat) : Resp × Store :=
  if jsStrictEq (.str userIdParam) (.num callerId) then
    ({ status := 400, body := [("error", .text "Je kunt jezelf niet volgen")] }, st)
  else
    let v := intAffinity userIdParam
    if st.follows.any (fun r => r.follower_id == callerId && r.following_id == v) then
      ({ status := 400, body := [("error", .text "Je volgt deze gebruiker al")] }, st)
    else if st.fkOn && !userExists st callerId then
      ({ status := 500, body := [("error", .text "Database error bij het volgen van gebruiker")] }, st)
    else if st.fkOn && !followTargetExists st v then
      ({ status := 500, body := [("error", .text "Database error bij het volgen van gebruiker")] }, st)
    else
      ({ status := 200, body := [("message", .text "Gebruiker succesvol gevolgd")] },
       { st with
         follows := st.follows ++
           [{ id := st.nextFollowId, follower_id := callerId, following_id := v,
              created_at := now }],
         nextFollowId := st.nextFollowId + 1 })

/-! ### Posts routes (the posts router concatenated in users.js) -/

/-- `POST /posts` (posts router lines 201-228) behind
`upload.single("image")`: 400 without a stored file, otherwise
`INSERT INTO posts (user_id, caption, image_url)` (FK check on `user_id`
when the connection has foreign keys on, answered by the generic 500). -/
def createPost (st : Store) (callerId : Nat) (caption : Option String)
    (file : Option UploadFile) (now rand : Nat) : Resp × Store :=
  match multerSingle file now rand with
  | .error _ => (uploadErrorResp, st)
  | .ok stored =>
    match stored.map (fun n => "/uploads/" ++ n) with
    | none => ({ status := 400, body := [("error", .text "Afbeelding is verplicht")] }, st)
    | some url =>
      if st.fkOn && !userExists st callerId then
        ({ status := 500,
           body := [("error", .text "Er is een fout opgetreden bij het maken van de post")] }, st)
      else
        ({ status := 200,
           body := [("id", .int st.nextPostId),
                    ("user_id", .int callerId),
                    ("caption", optText caption),
                    ("image_url", .text url)] },
         { st with
           posts := st.posts ++
             [{ id := st.nextPostId, user_id := callerId, image_url := url,
                caption := caption, created_at := now }],
           nextPostId := st.nextPostId + 1 })

/-- The `WHERE user_id = ? AND post_id = ?` predicate shared by the like
routes (the `post_id` placeholder is bound to the route-parameter
string). -/
def likePred (uid : Nat) (p : String) (l : LikeRow) : Bool :=
  l.user_id == uid && sqlValEqParam l.post_id p

/-- `POST /posts/:postId/like` (posts router lines 251-291): read the
current like row, delete it when present ("unliked"), otherwise
`INSERT INTO likes (user_id, post_id)` ("liked"). There is no check that
the post exists; a foreign-key or uniqueness failure of the insert lands
in the generic db-error branch (500). -/
def likeToggle (st : Store) (postIdParam : String) (callerId : Nat)
    (now : Nat) : Resp × Store :=
  match st.likes.find? (likePred callerId postIdParam) with
  | some _ =>
    ({ status := 200,
       body := [("action", .text "unliked"), ("message", .text "Like succesvol verwijderd")] },
     { st with likes := st.likes.filter (fun l => !likePred callerId postIdParam l) })
  | none =>
    let v := intAffinity postIdParam
    if st.fkOn && !userExists st callerId then
      ({ status := 500, body := [("error", .text "Database error bij het liken van de post")] }, st)
    else if st.fkOn && !postTargetExists st v then
      ({ status := 500, body := [("error", .text "Database error bij het liken van de post")] }, st)
    else if st.likes.any (fun l => l.user_id == callerId && l.post_id == v) then
      ({ status := 500, body := [("error", .text "Database error bij het liken van de post")] }, st)
    else
      ({ status := 200,
         body := [("action", .text "liked"), ("message", .text "Post succesvol geliked")] },
       { st with
         likes := st.likes ++
           [{ id := st.nextLikeId, user_id := callerId, post_id := v, created_at := now }],
         nextLikeId := st.nextLikeId + 1 })

/-- `DELETE /posts/:postId/like` (posts router lines 366-380): one DELETE,
no post-existence check, no inspection of `this.changes`; always answers
200 on db success. -/
def deleteLike (st : Store) (postIdParam : String) (callerId : Nat) :
    Resp × Store :=
  ({ status := 200, body := [("message", .text "Like succesvol verwijderd")] },
   { st with likes := st.likes.filter (fun l => !likePred callerId postIdParam l) })

/-- Number of rows of the `likes` table for the given caller and
post-id parameter. -/
def likeCount (st : Store) (uid : Nat) (p : String) : Nat :=
  (st.likes.filter (likePred uid p)).length

/-! ### Helper lemmas -/

theorem intCast_beq_natCast (a b : Nat) :
    (((a : Nat) : Int) == ((b : Nat) : Int)) = (a == b) := by
  by_cases h : a = b
  · subst h; simp
  · have h2 : (a : Int) ≠ (b : Int) := by exact_mod_cast h
    simp [h, h2]

/-- The stored-value comparison used by the uniqueness constraint agrees
with the parameter comparison used by the SELECT/DELETE placeholders. -/
theorem sqlValEqParam_eq_beq (v : SqlVal) (p : String) :
    sqlValEqParam v p = (v == intAffinity p) := by
  unfold sqlValEqParam intAffinity
  cases h : parseIntText p with
  | some k =>
    cases v with
    | int n =>
      by_cases hnk : n = k
      · subst hnk; simp
      · simp [hnk]
    | text s => simp
    | null => simp
  | none =>
    cases v with
    | int n => simp
    | text s =>
      by_cases hsp : s = p
      · subst hsp; simp
      · simp [hsp]
    | null => simp

/-- A value freshly stored through affinity conversion matches the very
parameter it came from. -/
theorem sqlValEqParam_intAffinity_self (p : String) :
    sqlValEqParam (intAffinity p) p = true := by
  unfold sqlValEqParam intAffinity
  cases h : parseIntText p with
  | some k => simp
  | none => simp

theorem find?_append_none {α : Type} (f : α → Bool) (l1 l2 : List α)
    (h : ∀ x ∈ l1, f x = false) : (l1 ++ l2).find? f = l2.find? f := by
  induction l1 with
  | nil => simp
  | cons a as ih =>
    have ha : f a = false := h a (by simp)
    have htl : ∀ x ∈ as, f x = false := fun x hx => h x (by simp [hx])
    simp only [List.cons_append, List.find?, ha]
    exact ih htl

theorem filter_not_filter {α : Type} (f : α → Bool) (l : List α) :
    (l.filter (fun x => !f x)).filter f = [] := by
  induction l with
  | nil => simp
  | cons a as ih =>
    cases hf : f a <;> simp [List.filter, hf, ih]

/-! ### Concrete fixtures -/

/-- A registered user row, as produced by a successful registration. -/
def aliceRow : UserRow :=
  { id := 1, username := "alice", email := "alice@x.com",
    password := bcryptHash "secret1", profile_picture := none, bio := none,
    created_at := 0 }

/-- A store holding exactly the user `alice`, with the connection's
foreign-key pragma set as given. -/
def oneUserState (fk : Bool) : Store :=
  { users := [aliceRow], posts := [], likes := [], follows := [],
    nextUserId := 2, nextPostId := 1, nextLikeId := 1, nextFollowId := 1,
    fkOn := fk }

/-! ### C1 — self-follow rejection -/

/-- C1: the claim says a self-follow request is rejected with 400 and no
follow row is inserted, keeping the invariant `follower_id ≠ following_id`.
The code contradicts its own guard: `userId === followerId` compares the
string route parameter against the numeric token id with JS strict
equality, which is always false across types, so the request succeeds with
200 and a row with `follower_id = following_id = 1` is inserted. -/
theorem selfFollow_guard_never_fires :
    (followUser (oneUserState true) "1" 1 5).1.status = 200 ∧
    (followUser (oneUserState true) "1" 1 5).2.follows =
      [{ id := 1, follower_id := 1, following_id := .int 1, created_at := 5 }] := by
  constructor <;> rfl

/-! ### C2 — like routes on an absent post -/

/-- A store with one user, no posts and one like, foreign keys off. -/
def likeCexState : Store := oneUserState false

/-- C2 counterexample: with no post in the store, `POST /posts/1/like`
answers 200 with action "liked" and inserts a like row (foreign keys off on
this connection), and `DELETE /posts/1/like` answers 200 — neither is the
404 the claim requires, and the likes table does change. -/
theorem likeToggle_absentPost_counterexample :
    postTargetExists likeCexState (intAffinity "1") = false ∧
    (likeToggle likeCexState "1" 1 7).1.status = 200 ∧
    bodyGet (likeToggle likeCexState "1" 1 7).1 "action" = some (.text "liked") ∧
    (likeToggle likeCexState "1" 1 7).2.likes ≠ [] ∧
    (deleteLike likeCexState "1" 1).1.status = 200 := by
  decide

/-- C2 amended: when no post with the given id exists, neither like route
answers 404. `DELETE` always answers 200 (it never checks the post). The
toggle: with a like row present it unlikes; otherwise with foreign keys on
the insert fails and the route answers 500 with the store unchanged, and
with foreign keys off it answers 200/"liked" and appends a like row
referencing the absent post. -/
theorem likeRoutes_absentPost_no404 (st : Store) (p : String) (uid now : Nat)
    (hpost : postTargetExists st (intAffinity p) = false) :
    (likeToggle st p uid now).1.status ≠ 404 ∧
    (deleteLike st p uid).1.status = 200 ∧
    (st.fkOn = true → st.likes.find? (likePred uid p) = none →
      (likeToggle st p uid now).1.status = 500 ∧ (likeToggle st p uid now).2 = st) ∧
    (st.fkOn = false → st.likes.find? (likePred uid p) = none →
      (likeToggle st p uid now).1.status = 200 ∧
      bodyGet (likeToggle st p uid now).1 "action" = some (.text "liked") ∧
      (likeToggle st p uid now).2.likes = st.likes ++
        [{ id := st.nextLikeId, user_id := uid, post_id := intAffinity p, created_at := now }]) := by
  cases hfind : st.likes.find? (likePred uid p) with
  | some l =>
    refine ⟨?_, ?_, ?_, ?_⟩
    · simp [likeToggle, hfind]
    · simp [deleteLike]
    · intro _ hnone; cases hnone
    · intro _ hnone; cases hnone
  | none =>
    have hall : ∀ x ∈ st.likes, likePred uid p x = false := by
      intro x hx
      have := List.find?_eq_none.mp hfind x hx
      simpa using this
    have huniq : (st.likes.any (fun l => l.user_id == uid && l.post_id == intAffinity p)) = false := by
      rw [List.any_eq_false]
      intro x hx
      have h1 := hall x hx
      unfold likePred at h1
      rw [sqlValEqParam_eq_beq] at h1
      simp [h1]
    cases hfk : st.fkOn with
    | false =>
      refine ⟨?_, by simp [deleteLike], ?_, ?_⟩
      · simp [likeToggle, hfind, hfk, huniq, bodyGet]
      · intro hcontr; cases hcontr
      · intro _ _
        refine ⟨?_, ?_, ?_⟩ <;> simp [likeToggle, hfind, hfk, huniq, bodyGet]
    | true =>
      by_cases hu : userExists st uid
      · refine ⟨?_, by simp [deleteLike], ?_, ?_⟩
        · simp [likeToggle, hfind, hfk, hu, hpost]
        · intro _ _
          constructor <;> simp [likeToggle, hfind, hfk, hu, hpost]
        · intro hcontr; cases hcontr
      · have hu2 : userExists st uid = false := by simpa using hu
        refine ⟨?_, by simp [deleteLike], ?_, ?_⟩
        · simp [likeToggle, hfind, hfk, hu2]
        · intro _ _
          constructor <;> simp [likeToggle, hfind, hfk, hu2]
        · intro hcontr; cases hcontr

/-- C2 witness: the amended behaviour at a concrete store (one user, no
posts, foreign keys on) and the absent post id 2. -/
theorem likeRoutes_absentPost_no404_witness :
    (likeToggle (oneUserState true) "2" 1 7).1.status ≠ 404 ∧
    (deleteLike (oneUserState true) "2" 1).1.status = 200 ∧
    ((oneUserState true).fkOn = true →
      (oneUserState true).likes.find? (likePred 1 "2") = none →
      (likeToggle (oneUserState true) "2" 1 7).1.status = 500 ∧
      (likeToggle (oneUserState true) "2" 1 7).2 = oneUserState true) ∧
    ((oneUserState true).fkOn = false →
      (oneUserState true).likes.find? (likePred 1 "2") = none →
      (likeToggle (oneUserState true) "2" 1 7).1.status = 200 ∧
      bodyGet (likeToggle (oneUserState true) "2" 1 7).1 "action" = some (.text "liked") ∧
      (likeToggle (oneUserState true) "2" 1 7).2.likes = (oneUserState true).likes ++
        [{ id := (oneUserState true).nextLikeId, user_id := 1, post_id := intAffinity "2",
           created_at := 7 }]) :=
  likeRoutes_absentPost_no404 (oneUserState true) "2" 1 7 (by decide)

/-! ### C3 — upload validation -/

/-- A non-image upload. -/
def txtFile : UploadFile := { originalname := "a.txt", size := 10 }

/-- An oversized (6 MiB) image upload. -/
def bigPng : UploadFile := { originalname := "cat.png", size := 6 * 1024 * 1024 }

/-- C3 counterexample: the claim says an oversized or non-image upload is
rejected with 400; in the code the multer error reaches the generic error
path, which answers 500 (no row is written, but the status is not 400). -/
theorem upload_validation_counterexample :
    imageExtOk txtFile.originalname = false ∧
    fileSizeLimit < bigPng.size ∧
    (createPost (oneUserState true) 1 (some "hi") (some bigPng) 9 3).1.status = 500 ∧
    (createPost (oneUserState true) 1 (some "hi") (some bigPng) 9 3).2 = oneUserState true ∧
    (putProfile (oneUserState true) 1 none (some txtFile) 9 3).1.status = 500 := by
  decide

/-- C3 amended: an upload whose name fails the image-extension filter or
whose size exceeds 5 MiB makes both create-post and profile-update answer
the generic 500 (not 400), with the store — in particular the posts and
users tables — unchanged. -/
theorem upload_validation_rejects (st : Store) (uid : Nat)
    (caption bio : Option String) (f : UploadFile) (now rand : Nat)
    (h : imageExtOk f.originalname = false ∨ fileSizeLimit < f.size) :
    ((createPost st uid caption (some f) now rand).1.status = 500 ∧
      (createPost st uid caption (some f) now rand).2 = st) ∧
    ((putProfile st uid bio (some f) now rand).1.status = 500 ∧
      (putProfile st uid bio (some f) now rand).2 = st) := by
  have hm : multerSingle (some f) now rand = .error () := by
    unfold multerSingle
    rcases h with h | h
    · simp [h]
    · by_cases he : imageExtOk f.originalname
      · simp [he, h]
      · simp [he]
  refine ⟨⟨?_, ?_⟩, ?_, ?_⟩ <;> simp [createPost, putProfile, hm, uploadErrorResp]

/-- C3 witness: the amended behaviour at the concrete oversized upload. -/
theorem upload_validation_rejects_witness :
    ((createPost (oneUserState true) 1 (some "hi") (some bigPng) 9 3).1.status = 500 ∧
      (createPost (oneUserState true) 1 (some "hi") (some bigPng) 9 3).2 = oneUserState true) ∧
    ((putProfile (oneUserState true) 1 none (some bigPng) 9 3).1.status = 500 ∧
      (putProfile (oneUserState true) 1 none (some bigPng) 9 3).2 = oneUserState true) :=
  upload_validation_rejects (oneUserState true) 1 (some "hi") none bigPng 9 3
    (Or.inr (by decide))

/-! ### C4 — sequential like toggle pair -/

/-- C4: for an existing post and user with no like row, the first toggle
answers "liked" leaving exactly one like row for the pair, and the
immediately following sequential toggle answers "unliked" leaving zero. -/
theorem likeToggle_pair (st : Store) (p : String) (uid n1 n2 : Nat)
    (hpost : postTargetExists st (intAffinity p) = true)
    (huser : userExists st uid = true)
    (h0 : likeCount st uid p = 0) :
    (likeToggle st p uid n1).1.status = 200 ∧
    bodyGet (likeToggle st p uid n1).1 "action" = some (.text "liked") ∧
    likeCount (likeToggle st p uid n1).2 uid p = 1 ∧
    (likeToggle (likeToggle st p uid n1).2 p uid n2).1.status = 200 ∧
    bodyGet (likeToggle (likeToggle st p uid n1).2 p uid n2).1 "action" =
      some (.text "unliked") ∧
    likeCount (likeToggle (likeToggle st p uid n1).2 p uid n2).2 uid p = 0 := by
  have hnil : st.likes.filter (likePred uid p) = [] := by
    have := h0
    unfold likeCount at this
    exact List.length_eq_zero.mp this
  have hall : ∀ x ∈ st.likes, likePred uid p x = false := by
    intro x hx
    have := List.filter_eq_nil_iff.mp hnil x hx
    simpa using this
  have hfind : st.likes.find? (likePred uid p) = none :=
    List.find?_eq_none.mpr (by intro x hx; simp [hall x hx])
  have huniq : (st.likes.any (fun l => l.user_id == uid && l.post_id == intAffinity p)) = false := by
    rw [List.any_eq_false]
    intro x hx
    have h1 := hall x hx
    unfold likePred at h1
    rw [sqlValEqParam_eq_beq] at h1
    simp [h1]
  set row : LikeRow :=
    { id := st.nextLikeId, user_id := uid, post_id := intAffinity p, created_at := n1 } with hrow
  have hrowPred : likePred uid p row = true := by
    unfold likePred
    simp [hrow, sqlValEqParam_intAffinity_self]
  have hg1 : (st.fkOn && !userExists st uid) = false := by simp [huser]
  have hg2 : (st.fkOn && !postTargetExists st (intAffinity p)) = false := by simp [hpost]
  have hstep1 : likeToggle st p uid n1 =
      ({ status := 200,
         body := [("action", .text "liked"), ("message", .text "Post succesvol geliked")] },
       { st with likes := st.likes ++ [row], nextLikeId := st.nextLikeId + 1 }) := by
    unfold likeToggle
    rw [hfind]
    simp only [hg1, hg2, huniq, Bool.false_eq_true, if_false]
  have hlikes1 : (likeToggle st p uid n1).2.likes = st.likes ++ [row] := by rw [hstep1]
  have hcount1 : likeCount (likeToggle st p uid n1).2 uid p = 1 := by
    unfold likeCount
    rw [hlikes1, List.filter_append, hnil]
    simp [hrowPred]
  have hfind2 : (st.likes ++ [row]).find? (likePred uid p) = some row := by
    rw [find?_append_none _ _ _ hall]
    simp [hrowPred]
  have houter : likeToggle { st with likes := st.likes ++ [row], nextLikeId := st.nextLikeId + 1 } p uid n2 =
      ({ status := 200,
         body := [("action", .text "unliked"), ("message", .text "Like succesvol verwijderd")] },
       { st with likes := (st.likes ++ [row]).filter (fun l => !likePred uid p l),
                 nextLikeId := st.nextLikeId + 1 }) := by
    have hl2 : ({ st with likes := st.likes ++ [row], nextLikeId := st.nextLikeId + 1 } : Store).likes = st.likes ++ [row] := rfl
    unfold likeToggle
    rw [hl2, hfind2]
  refine ⟨by rw [hstep1], by rw [hstep1]; rfl, hcount1, ?_, ?_, ?_⟩
  · rw [hstep1, houter]
  · rw [hstep1, houter]
    rfl
  · rw [hstep1, houter]
    show (List.filter (likePred uid p)
        (List.filter (fun l => !likePred uid p l) (st.likes ++ [row]))).length = 0
    rw [filter_not_filter]
    rfl

/-- A store with the user `alice` and one post of hers, foreign keys on. -/
def onePostState : Store :=
  { users := [aliceRow],
    posts := [{ id := 1, user_id := 1, image_url := "/uploads/1-1.png",
                caption := some "hi", created_at := 0 }],
    likes := [], follows := [],
    nextUserId := 2, nextPostId := 2, nextLikeId := 1, nextFollowId := 1,
    fkOn := true }

/-- C4 witness: the toggle pair behaviour at a concrete store with one
post and no likes. -/
theorem likeToggle_pair_witness :
    (likeToggle onePostState "1" 1 5).1.status = 200 ∧
    bodyGet (likeToggle onePostState "1" 1 5).1 "action" = some (.text "liked") ∧
    likeCount (likeToggle onePostState "1" 1 5).2 1 "1" = 1 ∧
    (likeToggle (likeToggle onePostState "1" 1 5).2 "1" 1 6).1.status = 200 ∧
    bodyGet (likeToggle (likeToggle onePostState "1" 1 5).2 "1" 1 6).1 "action" =
      some (.text "unliked") ∧
    likeCount (likeToggle (likeToggle onePostState "1" 1 5).2 "1" 1 6).2 1 "1" = 0 :=
  likeToggle_pair onePostState "1" 1 5 6 (by decide) (by decide) (by decide)

/-! ### C5 — login / token-verification round trip -/

/-- C5: for a stored account found by email whose password matches, login
answers 200 carrying a token signed over exactly that account's id and
username, and the verification middleware accepts that token and yields
the same id and username. -/
theorem login_roundtrip (st : Store) (email password : String) (u : UserRow) (now : Nat)
    (hfind : st.users.find? (fun r => r.email == email) = some u)
    (hpw : bcryptCompare password u.password = true) :
    (login st email password).status = 200 ∧
    bodyGet (login st email password) "token" =
      some (.tok (jwtSign u.id u.username "your_jwt_secret")) ∧
    authenticateToken (some (jwtSign u.id u.username "your_jwt_secret")) now =
      .ok (u.id, u.username) := by
  unfold login
  rw [hfind]
  simp [hpw, bodyGet, authenticateToken, jwtVerify, jwtSign]

/-- C5 witness: the round trip for `alice`'s stored credentials. -/
theorem login_roundtrip_witness :
    (login (oneUserState true) "alice@x.com" "secret1").status = 200 ∧
    bodyGet (login (oneUserState true) "alice@x.com" "secret1") "token" =
      some (.tok (jwtSign aliceRow.id aliceRow.username "your_jwt_secret")) ∧
    authenticateToken (some (jwtSign aliceRow.id aliceRow.username "your_jwt_secret")) 9 =
      .ok (aliceRow.id, aliceRow.username) :=
  login_roundtrip (oneUserState true) "alice@x.com" "secret1" aliceRow 9
    (by decide) (by decide)

/-! ### C6 — register input validation -/

/-- C6: a register request with a missing field, a password shorter than 6,
or an email failing the route's regex is answered 400 before any store
operation, leaving the store untouched. -/
theorem register_validation_400 (st : Store) (now : Nat)
    (username email password : Option String)
    (h : username = none ∨ email = none ∨ password = none ∨
         (∃ p, password = some p ∧ p.length < 6) ∨
         (∃ e, email = some e ∧ emailRegexTest e = false)) :
    (register st now username email password).resp.status = 400 ∧
    (register st now username email password).st = st ∧
    (register st now username email password).storeOps = 0 := by
  by_cases hf : (jsFalsyStr username || jsFalsyStr email || jsFalsyStr password) = true
  · unfold register
    simp [hf]
  · have hf2 : (jsFalsyStr username || jsFalsyStr email || jsFalsyStr password) = false := by
      simpa using hf
    have hu : jsFalsyStr username = false := by
      rcases Bool.or_eq_false_iff.mp hf2 with ⟨h1, _⟩
      rcases Bool.or_eq_false_iff.mp h1 with ⟨h3, _⟩
      exact h3
    have he : jsFalsyStr email = false := by
      rcases Bool.or_eq_false_iff.mp hf2 with ⟨h1, _⟩
      rcases Bool.or_eq_false_iff.mp h1 with ⟨_, h4⟩
      exact h4
    have hp : jsFalsyStr password = false := by
      rcases Bool.or_eq_false_iff.mp hf2 with ⟨_, h2⟩
      exact h2
    rcases h with h | h | h | ⟨p, hpw, hplen⟩ | ⟨e, hem, hereg⟩
    · rw [h] at hu; simp [jsFalsyStr] at hu
    · rw [h] at he; simp [jsFalsyStr] at he
    · rw [h] at hp; simp [jsFalsyStr] at hp
    · have hp2 : jsFalsyStr (some p) = false := by rw [← hpw]; exact hp
      unfold register
      rw [hpw]
      simp [hu, he, hp2, hplen]
    · have he2 : jsFalsyStr (some e) = false := by rw [← hem]; exact he
      unfold register
      rw [hem]
      by_cases hlen : (password.getD "").length < 6
      · simp [hu, he2, hp, hlen]
      · simp [hu, he2, hp, hlen, hereg]

/-- C6 witness: a too-short password is rejected with 400 and no store
access. -/
theorem register_validation_400_witness :
    (register (oneUserState true) 3 (some "bob") (some "bob@x.com") (some "abc")).resp.status = 400 ∧
    (register (oneUserState true) 3 (some "bob") (some "bob@x.com") (some "abc")).st = oneUserState true ∧
    (register (oneUserState true) 3 (some "bob") (some "bob@x.com") (some "abc")).storeOps = 0 :=
  register_validation_400 (oneUserState true) 3 (some "bob") (some "bob@x.com") (some "abc")
    (Or.inr (Or.inr (Or.inr (Or.inl ⟨"abc", rfl, by decide⟩))))

/-! ### C7 — profile counters -/

/-- C7: for a user row found by the route parameter, the profile response
reports `post_count` as the number of posts owned by that user,
`followers_count` as the number of follow rows pointing at the user, and
`following_count` as the number of follow rows originating from the user. -/
theorem getUserProfile_counts (st : Store) (p : String) (u : UserRow) (N M K : Nat)
    (hfind : st.users.find? (fun r => sqlEqNatParam r.id p) = some u)
    (hN : (st.posts.filter (fun r => r.user_id == u.id)).length = N)
    (hM : (st.follows.filter (fun r => r.following_id == SqlVal.int (u.id : Int))).length = M)
    (hK : (st.follows.filter (fun r => r.follower_id == u.id)).length = K) :
    bodyGet (getUserProfile st p) "post_count" = some (.int (N : Int)) ∧
    bodyGet (getUserProfile st p) "followers_count" = some (.int (M : Int)) ∧
    bodyGet (getUserProfile st p) "following_count" = some (.int (K : Int)) := by
  have hup : sqlEqNatParam u.id p = true :=
    @List.find?_some UserRow (fun r => sqlEqNatParam r.id p) u st.users hfind
  obtain ⟨k, hk, huk⟩ : ∃ k, parseIntText p = some k ∧ (u.id : Int) = k := by
    unfold sqlEqNatParam at hup
    cases hpk : parseIntText p with
    | none => rw [hpk] at hup; cases hup
    | some k =>
      rw [hpk] at hup
      exact ⟨k, rfl, by simpa using hup⟩
  have hk2 : parseIntText p = some ((u.id : Nat) : Int) := by rw [hk, huk]
  have hpostEq : ∀ r : PostRow, sqlEqNatParam r.user_id p = (r.user_id == u.id) := by
    intro r
    unfold sqlEqNatParam
    rw [hk2]
    exact intCast_beq_natCast r.user_id u.id
  have hfolEq : ∀ r : FollowRow, sqlEqNatParam r.follower_id p = (r.follower_id == u.id) := by
    intro r
    unfold sqlEqNatParam
    rw [hk2]
    exact intCast_beq_natCast r.follower_id u.id
  have hfolwEq : ∀ r : FollowRow,
      sqlValEqParam r.following_id p = (r.following_id == SqlVal.int (u.id : Int)) := by
    intro r
    rw [sqlValEqParam_eq_beq]
    unfold intAffinity
    rw [hk2]
  have hc1 : (st.posts.filter (fun r => sqlEqNatParam r.user_id p)).length = N := by
    rw [List.filter_congr (fun x _ => hpostEq x)]
    exact hN
  have hc2 : (st.follows.filter (fun r => sqlValEqParam r.following_id p)).length = M := by
    rw [List.filter_congr (fun x _ => hfolwEq x)]
    exact hM
  have hc3 : (st.follows.filter (fun r => sqlEqNatParam r.follower_id p)).length = K := by
    rw [List.filter_congr (fun x _ => hfolEq x)]
    exact hK
  refine ⟨?_, ?_, ?_⟩ <;>
    · unfold getUserProfile
      rw [hfind]
      simp only []
      rw [bodyGet]
      simp only [List.find?]
      rw [hc1, hc2, hc3]
      rfl

/-- A second registered user. -/
def bobRow : UserRow :=
  { id := 2, username := "bob", email := "bob@x.com",
    password := bcryptHash "secret2", profile_picture := none, bio := none,
    created_at := 0 }

/-- A store where `alice` owns one post and is followed by `bob`. -/
def followedState : Store :=
  { users := [aliceRow, bobRow],
    posts := [{ id := 1, user_id := 1, image_url := "/uploads/1-1.png",
                caption := some "hi", created_at := 0 }],
    likes := [],
    follows := [{ id := 1, follower_id := 2, following_id := .int 1, created_at := 0 }],
    nextUserId := 3, nextPostId := 2, nextLikeId := 1, nextFollowId := 2,
    fkOn := true }

/-- C7 witness: `alice`'s profile reports 1 post, 1 follower, 0 following. -/
theorem getUserProfile_counts_witness :
    bodyGet (getUserProfile followedState "1") "post_count" = some (.int (1 : Nat)) ∧
    bodyGet (getUserProfile followedState "1") "followers_count" = some (.int (1 : Nat)) ∧
    bodyGet (getUserProfile followedState "1") "following_count" = some (.int (0 : Nat)) :=
  getUserProfile_counts followedState "1" aliceRow 1 1 0
    (by decide) (by decide) (by decide) (by decide)

/-! ### C8 — profile update frame conditions -/

/-- C8: with neither field supplied the update answers 400 and leaves the
store unchanged; with only a bio supplied, only the caller's `bio` column
changes; with only a (valid) picture supplied, only the caller's
`profile_picture` column changes; all other columns and all other users'
rows are untouched, as is the posts table. -/
theorem putProfile_frame (st : Store) (uid : Nat) (b : String) (f : UploadFile)
    (now rand : Nat)
    (hext : imageExtOk f.originalname = true) (hsize : f.size ≤ fileSizeLimit) :
    ((putProfile st uid none none now rand).1.status = 400 ∧
      (putProfile st uid none none now rand).2 = st) ∧
    ((putProfile st uid (some b) none now rand).1.status = 200 ∧
      List.Forall₂ (fun u v : UserRow =>
        v.id = u.id ∧ v.username = u.username ∧ v.email = u.email ∧
        v.password = u.password ∧ v.created_at = u.created_at ∧
        v.profile_picture = u.profile_picture ∧
        v.bio = if u.id = uid then some b else u.bio)
        st.users (putProfile st uid (some b) none now rand).2.users ∧
      (putProfile st uid (some b) none now rand).2.posts = st.posts) ∧
    ((putProfile st uid none (some f) now rand).1.status = 200 ∧
      List.Forall₂ (fun u v : UserRow =>
        v.id = u.id ∧ v.username = u.username ∧ v.email = u.email ∧
        v.password = u.password ∧ v.created_at = u.created_at ∧
        v.bio = u.bio ∧
        v.profile_picture = (if u.id = uid
          then some ("/uploads/" ++ storedFileName now rand f.originalname)
          else u.profile_picture))
        st.users (putProfile st uid none (some f) now rand).2.users ∧
      (putProfile st uid none (some f) now rand).2.posts = st.posts) := by
  have hnotbig : ¬ (f.size > fileSizeLimit) := by omega
  have hm : multerSingle (some f) now rand = .ok (some (storedFileName now rand f.originalname)) := by
    unfold multerSingle
    simp [hext, hnotbig]
  refine ⟨⟨?_, ?_⟩, ⟨?_, ?_, ?_⟩, ⟨?_, ?_, ?_⟩⟩
  · simp [putProfile, multerSingle]
  · simp [putProfile, multerSingle]
  · simp [putProfile, multerSingle]
  · have husers : (putProfile st uid (some b) none now rand).2.users =
        st.users.map (fun u =>
          if u.id == uid then { u with bio := some b } else u) := by
      simp [putProfile, multerSingle]
    rw [husers, List.forall₂_map_right_iff, List.forall₂_same]
    intro x _
    by_cases hid : x.id = uid
    · simp [hid]
    · have hid2 : (x.id == uid) = false := by simp [hid]
      simp [hid, hid2]
  · simp [putProfile, multerSingle]
  · simp [putProfile, hm]
  · have husers : (putProfile st uid none (some f) now rand).2.users =
        st.users.map (fun u =>
          if u.id == uid
          then { u with profile_picture := some ("/uploads/" ++ storedFileName now rand f.originalname) }
          else u) := by
      simp [putProfile, hm]
    rw [husers, List.forall₂_map_right_iff, List.forall₂_same]
    intro x _
    by_cases hid : x.id = uid
    · simp [hid]
    · have hid2 : (x.id == uid) = false := by simp [hid]
      simp [hid, hid2]
  · simp [putProfile, hm]

/-- A small valid image upload. -/
def okPng : UploadFile := { originalname := "me.png", size := 100 }

/-- C8 witness: the frame conditions at the one-user store, updating with
a bio or with a small valid picture. -/
theorem putProfile_frame_witness :
    ((putProfile (oneUserState true) 1 none none 9 3).1.status = 400 ∧
      (putProfile (oneUserState true) 1 none none 9 3).2 = oneUserState true) ∧
    ((putProfile (oneUserState true) 1 (some "hello") none 9 3).1.status = 200 ∧
      List.Forall₂ (fun u v : UserRow =>
        v.id = u.id ∧ v.username = u.username ∧ v.email = u.email ∧
        v.password = u.password ∧ v.created_at = u.created_at ∧
        v.profile_picture = u.profile_picture ∧
        v.bio = if u.id = 1 then some "hello" else u.bio)
        (oneUserState true).users (putProfile (oneUserState true) 1 (some "hello") none 9 3).2.users ∧
      (putProfile (oneUserState true) 1 (some "hello") none 9 3).2.posts = (oneUserState true).posts) ∧
    ((putProfile (oneUserState true) 1 none (some okPng) 9 3).1.status = 200 ∧
      List.Forall₂ (fun u v : UserRow =>
        v.id = u.id ∧ v.username = u.username ∧ v.email = u.email ∧
        v.password = u.password ∧ v.created_at = u.created_at ∧
        v.bio = u.bio ∧
        v.profile_picture = (if u.id = 1
          then some ("/uploads/" ++ storedFileName 9 3 okPng.originalname)
          else u.profile_picture))
        (oneUserState true).users (putProfile (oneUserState true) 1 none (some okPng) 9 3).2.users ∧
      (putProfile (oneUserState true) 1 none (some okPng) 9 3).2.posts = (oneUserState true).posts) :=
  putProfile_frame (oneUserState true) 1 "hello" okPng 9 3 (by decide) (by decide)

/-! ### C9 — password hash never in responses -/

/-- C9: no response of register, login, or the profile lookup carries a
`password` field, whatever the store and the inputs. -/
theorem responses_no_password_field (st : Store) (now : Nat)
    (username email password : Option String) (e pw p : String) :
    hasKey (register st now username email password).resp "password" = false ∧
    hasKey (login st e pw) "password" = false ∧
    hasKey (getUserProfile st p) "password" = false := by
  refine ⟨?_, ?_, ?_⟩
  · unfold register
    dsimp only
    repeat (first | rfl | split)
  · unfold login
    repeat (first | rfl | split)
  · unfold getUserProfile
    repeat (first | rfl | split)

/-! ### C10 — tokens never expire -/

/-- The token value carried by a response object, if any. -/
def respToken (r : Resp) : Option Token :=
  r.body.findSome? (fun kv =>
    match kv.2 with
    | .tok t => some t
    | _ => none)

/-- C10: every token a register or login response carries has no `exp`
claim and is signed with the fixed secret, so `jwt.verify` with that
unchanged secret accepts it at every later time, yielding its embedded
identity. -/
theorem tokens_never_expire (st : Store) (now later : Nat)
    (username email password : Option String) (e pw : String) (t : Token)
    (h : respToken (register st now username email password).resp = some t ∨
         respToken (login st e pw) = some t) :
    t.payloadExp = none ∧
    jwtVerify t "your_jwt_secret" later = some (t.payloadId, t.payloadUsername) := by
  have hsig : t.secret = "your_jwt_secret" ∧ t.payloadExp = none := by
    rcases h with h | h
    · unfold register at h
      dsimp only at h
      split at h
      · simp [respToken] at h
      · split at h
        · simp [respToken] at h
        · split at h
          · simp [respToken] at h
          · split at h
            · simp [respToken] at h
            · simp [respToken, jwtSign] at h
              rw [← h]
              exact ⟨rfl, rfl⟩
    · unfold login at h
      split at h
      · simp [respToken] at h
      · split at h
        · simp [respToken] at h
        · simp [respToken, jwtSign] at h
          rw [← h]
          exact ⟨rfl, rfl⟩
  obtain ⟨hs, hexp⟩ := hsig
  refine ⟨hexp, ?_⟩
  unfold jwtVerify
  rw [hexp]
  simp [hs]

/-- C10 witness: the token issued by a concrete successful registration is
accepted by verification at the much later time 999999. -/
theorem tokens_never_expire_witness :
    (Token.mk 2 "bob" none "your_jwt_secret").payloadExp = none ∧
    jwtVerify (Token.mk 2 "bob" none "your_jwt_secret") "your_jwt_secret" 999999 =
      some ((Token.mk 2 "bob" none "your_jwt_secret").payloadId,
            (Token.mk 2 "bob" none "your_jwt_secret").payloadUsername) :=
  tokens_never_expire (oneUserState true) 3 999999
    (some "bob") (some "bob@x.com") (some "secret2") "" ""
    (Token.mk 2 "bob" none "your_jwt_secret") (Or.inl (by decide))

end Insta
